import Mathlib

/-!
Shallow embedding of the student affect monitor (src/student_affect_monitor.py)
and its single-shot classification endpoint (src/api.py), with theorems about
the claims of the specification.

Modelling conventions:
* Python floats are modelled as real numbers (`ℝ`) where Euclidean geometry is
  involved (landmark points, EAR), and as rationals (`ℚ`) for the typing
  durations, whose policy comparisons are exact.
* Python lists are `List`; the emotion window holds `String` labels.
* External collaborators (face detector, DeepFace classifier, HTTP framework)
  are parameters of the embedded functions, as the spec treats them.
-/

namespace AffectMonitor

/-! ### Tunables (src/student_affect_monitor.py lines 19-23) -/

def EMOTION_SAMPLE_INTERVAL : Nat := 1
def EMOTION_REPORT_INTERVAL : Nat := 30
def ALERT_THRESHOLD : Nat := 5
noncomputable def EAR_THRESH : ℝ := 0.23
def EAR_CONSEC_FRAMES : Nat := 15

/-! ### Label harmonisation (src/student_affect_monitor.py lines 40-52) -/

/-- The `RAW_TO_HIGH` mapping, an association list standing for the Python
dict (its keys are pairwise distinct). -/
def RAW_TO_HIGH : List (String × String) :=
  [("angry", "tension/frustration"),
   ("fear", "tension/frustration"),
   ("disgust", "confusion"),
   ("surprise", "confusion"),
   ("sad", "boredom"),
   ("happy", "engagement/focus"),
   ("neutral", "engagement/focus")]

def NEGATIVE_EMOTIONS : List String :=
  ["tired", "tension/frustration", "confusion", "boredom"]

/-- `harmonise(raw_face, tired_flag)`: "tired" if the flag is set, else the
dict lookup with default "engagement/focus". -/
def harmonise (raw_face : String) (tired_flag : Bool) : String :=
  if tired_flag then "tired"
  else (RAW_TO_HIGH.lookup raw_face).getD "engagement/focus"

/-! ### Eye-closure debouncer (src/student_affect_monitor.py lines 107-112)

The per-frame state transition of `detect_emotion` once `bothEyesClosed`
(`ear(l_eye) < EAR_THRESH and ear(r_eye) < EAR_THRESH`) has been computed:
a closed frame increments `eye_closed_counter` and reports tired=false; an
open frame reports tired=true exactly when the counter reached
`EAR_CONSEC_FRAMES`, then resets the counter to 0. -/

def debounceStep (counter : Nat) (bothEyesClosed : Bool) : Nat × Bool :=
  if bothEyesClosed then (counter + 1, false)
  else (0, decide (EAR_CONSEC_FRAMES ≤ counter))

/-- Run the debouncer over a sequence of per-frame `bothEyesClosed` values,
returning the per-frame tired emissions and the final counter. -/
def debounceRun (counter : Nat) : List Bool → List Bool × Nat
  | [] => ([], counter)
  | f :: rest =>
      let step := debounceStep counter f
      let rec' := debounceRun step.1 rest
      (step.2 :: rec'.1, rec'.2)

/-! ### EAR computer (src/student_affect_monitor.py lines 55-59; the same
function is re-declared verbatim in src/api.py lines 25-29)

`ear(pts)` indexes `pts[0] .. pts[5]`; we model the Python list indexing with
`List.getD` (the caller contract guarantees the indices are in range, so the
default is never reached on the inputs of interest). -/

/-- `dist.euclidean` on planar points. -/
noncomputable def euclidean (p q : ℝ × ℝ) : ℝ :=
  Real.sqrt ((p.1 - q.1) ^ 2 + (p.2 - q.2) ^ 2)

noncomputable def ear (pts : List (ℝ × ℝ)) : ℝ :=
  let A := euclidean (pts.getD 1 (0, 0)) (pts.getD 5 (0, 0))
  let B := euclidean (pts.getD 2 (0, 0)) (pts.getD 4 (0, 0))
  let C := euclidean (pts.getD 0 (0, 0)) (pts.getD 3 (0, 0))
  (A + B) / (2 * C)

/-! ### Per-frame processing in detect_emotion (lines 97-113)

The loop body `for rect in faces: ...; break` uses only the first detected
face; a frame with zero faces leaves `eye_closed_counter` untouched and keeps
`tired_now = False`. A face is modelled by the two 6-point eye contours
already sliced from its 68 landmarks (`shape_np[LEFT_EYE]`,
`shape_np[RIGHT_EYE]`). -/

noncomputable def processFrame (counter : Nat)
    (faces : List (List (ℝ × ℝ) × List (ℝ × ℝ))) : Nat × Bool :=
  match faces with
  | [] => (counter, false)
  | (l_eye, r_eye) :: _ =>
      debounceStep counter (decide (ear l_eye < EAR_THRESH ∧ ear r_eye < EAR_THRESH))

/-! ### Fusion reducer state and one cycle (analyze_emotions, lines 140-161) -/

structure MonitorState where
  emotion_window : List String
  typing_metrics : List ℚ
  scroll_events : Nat

structure FusedReport where
  facialState : String
  typingState : String
  scrollState : String

/-- The labels the alert loop fires for: `Counter(e for e in emotion_window
if e in NEGATIVE_EMOTIONS)` iterated in first-encounter order, restricted to
counts `>= ALERT_THRESHOLD` (line 144-146). -/
def alertedLabels (w : List String) : List String :=
  ((w.filter fun e => decide (e ∈ NEGATIVE_EMOTIONS)).dedup).filter
    fun e => decide (ALERT_THRESHOLD ≤ w.count e)

/-- The emotion window after the alert loop: for each alerted label the code
reassigns `emotion_window = [e for e in emotion_window if e != emo]`
(line 148). -/
def purgeWindow (w : List String) : List String :=
  (alertedLabels w).foldl (fun acc emo => acc.filter fun e => decide (e ≠ emo)) w

/-- One comparison step of `max(set(emotion_window), key=emotion_window.count)`. -/
def pickStep (w : List String) (best e : String) : String :=
  if w.count best < w.count e then e else best

/-- Models `max(set(emotion_window), key=emotion_window.count)` (line 149).
Python's `max` over a `set` returns an element of maximal count, with ties
broken by the set's unspecified iteration order; this determinisation returns
the first element of maximal count, which agrees with the source whenever the
maximum is unique. -/
def mostFrequent (w : List String) : String :=
  w.foldl (pickStep w) "engagement/focus"

/-- `max(set(emotion_window), key=emotion_window.count) if emotion_window
else "engagement/focus"` (line 149). -/
def faceModeOf (w : List String) : String :=
  if w = [] then "engagement/focus" else mostFrequent w

/-- `typing_state` policy (lines 150-153): inactive when no samples, else by
the mean hold duration against 0.5 and 0.15. -/
def typingStateOf (m : List ℚ) : String :=
  if m = [] then "inactive"
  else
    let avg := m.sum / (m.length : ℚ)
    if 1 / 2 < avg then "confused/frustrated"
    else if avg < 3 / 20 then "confident"
    else "neutral"

/-- `scroll_state` policy (line 154). -/
def scrollStateOf (n : Nat) : String :=
  if 10 < n then "impatient/restless" else "focused"

/-- Cross-adjustment rule (line 155): a neutral facial read is overridden to
boredom when scrolling is heavy. -/
def crossAdjustFace (face : String) (n : Nat) : String :=
  if face = "engagement/focus" ∧ 15 < n then "boredom" else face

/-- One iteration of the `analyze_emotions` loop body (lines 144-161): the
alert loop purges the window first, then the report states are computed from
the purged window and the not-yet-reset counters; finally `typing_metrics`
is cleared and `scroll_events` reset to 0. -/
def runCycle (s : MonitorState) : FusedReport × MonitorState :=
  let w := purgeWindow s.emotion_window
  ({ facialState := crossAdjustFace (faceModeOf w) s.scroll_events,
     typingState := typingStateOf s.typing_metrics,
     scrollState := scrollStateOf s.scroll_events },
   { emotion_window := w, typing_metrics := [], scroll_events := 0 })

/-! ### Single-shot endpoint (src/api.py lines 31-60) -/

/-- Result of the external `DeepFace.analyze` call: a dominant label with its
score, or a raised exception (caught at line 56). -/
inductive ClassifierResult
  | ok (raw : String) (score : ℚ)
  | failed

structure AffectResponse where
  label : String
  score : ℚ
  deriving DecidableEq

/-- The tired check of the endpoint (lines 43-49): false when the face mesh
finds no face, else `ear(l_eye + r_eye) < EAR_THRESH` on the concatenated
12-point list. -/
noncomputable def apiTired
    (landmarks : Option (List (ℝ × ℝ) × List (ℝ × ℝ))) : Bool :=
  match landmarks with
  | none => false
  | some (l_eye, r_eye) => decide (ear (l_eye ++ r_eye) < EAR_THRESH)

/-- The `/affect` handler (lines 31-60). `Frame` is the opaque decoded image;
`detect` and `classify` are the external face-mesh and DeepFace
collaborators; `decoded` is `none` when `cv2.imdecode` fails. The module
defines no mutable state, so an arbitrary ambient state `st` is threaded
through unchanged, making the absence of mutation explicit. -/
noncomputable def affectEndpoint {Frame σ : Type}
    (detect : Frame → Option (List (ℝ × ℝ) × List (ℝ × ℝ)))
    (classify : Frame → ClassifierResult)
    (st : σ) (contentType : String) (decoded : Option Frame) :
    Except (Nat × String) AffectResponse × σ :=
  if contentType ∉ ["image/jpeg", "image/png"] then
    (Except.error (415, "upload an image"), st)
  else
    match decoded with
    | none => (Except.error (400, "bad image"), st)
    | some frame =>
        let tired := apiTired (detect frame)
        let rawScore :=
          match classify frame with
          | ClassifierResult.ok r sc => (r, sc)
          | ClassifierResult.failed => ("neutral", (0 : ℚ))
        (Except.ok { label := harmonise rawScore.1 tired, score := rawScore.2 }, st)

/-! ### Helper lemmas -/

lemma getD_map_of_lt {α β : Type} (f : α → β) (l : List α) (i : Nat)
    (h : i < l.length) (d : α) (d' : β) :
    (l.map f).getD i d' = f (l.getD i d) := by
  rw [List.getD_eq_getElem?_getD, List.getD_eq_getElem?_getD, List.getElem?_map,
    List.getElem?_eq_getElem h]
  rfl

/-! ### Claims -/

/-- C5: `harmonise` returns "tired" whenever the tired flag is set; otherwise
it follows the fixed `RAW_TO_HIGH` table, and returns "engagement/focus" for
every raw label outside the table. -/
theorem C5_harmonise (r : String) :
    harmonise r true = "tired" ∧
    (r ∉ ["angry", "fear", "disgust", "surprise", "sad", "happy", "neutral"] →
      harmonise r false = "engagement/focus") ∧
    harmonise "angry" false = "tension/frustration" ∧
    harmonise "fear" false = "tension/frustration" ∧
    harmonise "disgust" false = "confusion" ∧
    harmonise "surprise" false = "confusion" ∧
    harmonise "sad" false = "boredom" ∧
    harmonise "happy" false = "engagement/focus" ∧
    harmonise "neutral" false = "engagement/focus" := by
  refine ⟨rfl, ?_, by decide, by decide, by decide, by decide, by decide,
    by decide, by decide⟩
  intro h
  simp only [List.mem_cons, List.not_mem_nil, or_false, not_or] at h
  obtain ⟨h1, h2, h3, h4, h5, h6, h7⟩ := h
  have b1 : (r == "angry") = false := by simp [h1]
  have b2 : (r == "fear") = false := by simp [h2]
  have b3 : (r == "disgust") = false := by simp [h3]
  have b4 : (r == "surprise") = false := by simp [h4]
  have b5 : (r == "sad") = false := by simp [h5]
  have b6 : (r == "happy") = false := by simp [h6]
  have b7 : (r == "neutral") = false := by simp [h7]
  simp [harmonise, RAW_TO_HIGH, List.lookup, b1, b2, b3, b4, b5, b6, b7]

/-- C5 witness: the unknown label "unknown_label" falls through to the
default, and the tired flag overrides "happy". -/
theorem C5_harmonise_witness :
    "unknown_label" ∉ ["angry", "fear", "disgust", "surprise", "sad", "happy",
      "neutral"] ∧
    harmonise "unknown_label" false = "engagement/focus" ∧
    harmonise "happy" true = "tired" :=
  ⟨by decide, (C5_harmonise "unknown_label").2.1 (by decide),
    (C5_harmonise "happy").1⟩

/-- C2: starting from counter 0, fourteen closed frames followed by an open
one never emit tired; fifteen closed frames followed by an open one emit
tired exactly once, on the 16th frame, with the counter 0 afterwards; and a
closed frame always emits tired=false. -/
theorem C2_debouncer :
    (debounceRun 0 (List.replicate 14 true ++ [false])).1
      = List.replicate 15 false ∧
    (debounceRun 0 (List.replicate 15 true ++ [false])).1
      = List.replicate 15 false ++ [true] ∧
    (debounceRun 0 (List.replicate 15 true ++ [false])).2 = 0 ∧
    ∀ counter, (debounceStep counter true).2 = false := by
  refine ⟨by decide, by decide, by decide, fun counter => rfl⟩

/-- C9: a frame with zero detected faces emits tired=false and leaves the
consecutive-closed-frames counter exactly as it was. -/
theorem C9_zero_faces (counter : Nat) :
    processFrame counter [] = (counter, false) := rfl

/-- C4: the cross-adjustment of the fusion cycle overrides the facial state
to "boredom" exactly when it is "engagement/focus" and the scroll count
exceeds 15; `runCycle` applies this rule to the computed facial mode. -/
theorem C4_cross_adjustment (s : MonitorState) (face : String) (n : Nat) :
    (runCycle s).1.facialState
      = crossAdjustFace (faceModeOf (purgeWindow s.emotion_window))
          s.scroll_events ∧
    (face = "engagement/focus" → 15 < n → crossAdjustFace face n = "boredom") ∧
    (face ≠ "engagement/focus" → crossAdjustFace face n = face) ∧
    (n ≤ 15 → crossAdjustFace face n = face) := by
  refine ⟨rfl, ?_, ?_, ?_⟩
  · intro hf hn
    simp [crossAdjustFace, hf, hn]
  · intro hf
    simp [crossAdjustFace, hf]
  · intro hn
    have hgt : ¬ 15 < n := by omega
    simp [crossAdjustFace, hgt]

/-- C4 witness: the override fires at scroll count 16 on a neutral facial
read, and not on a non-neutral read nor at scroll count 15. -/
theorem C4_cross_adjustment_witness :
    15 < 16 ∧
    crossAdjustFace "engagement/focus" 16 = "boredom" ∧
    crossAdjustFace "boredom" 16 = "boredom" ∧
    crossAdjustFace "engagement/focus" 15 = "engagement/focus" :=
  ⟨by decide,
   (C4_cross_adjustment ⟨[], [], 0⟩ "engagement/focus" 16).2.1 rfl (by decide),
   (C4_cross_adjustment ⟨[], [], 0⟩ "boredom" 16).2.2.1 (by decide),
   (C4_cross_adjustment ⟨[], [], 0⟩ "engagement/focus" 15).2.2.2 (by decide)⟩

/-! ### Alert-dispatcher lemmas -/

lemma foldl_filter_ne (labels : List String) :
    ∀ w : List String,
      labels.foldl (fun acc emo => acc.filter fun e => decide (e ≠ emo)) w
        = w.filter fun e => decide (e ∉ labels) := by
  induction labels with
  | nil =>
      intro w
      simp
  | cons lab rest ih =>
      intro w
      rw [List.foldl_cons, ih, List.filter_filter]
      apply List.filter_congr
      intro a _
      by_cases h1 : a = lab <;> by_cases h2 : a ∈ rest <;> simp [h1, h2]

lemma mem_alertedLabels (w : List String) (lab : String) :
    lab ∈ alertedLabels w ↔
      lab ∈ NEGATIVE_EMOTIONS ∧ ALERT_THRESHOLD ≤ w.count lab := by
  unfold alertedLabels
  simp only [List.mem_filter, List.mem_dedup, decide_eq_true_eq]
  constructor
  · rintro ⟨⟨-, hneg⟩, hcnt⟩
    exact ⟨hneg, hcnt⟩
  · rintro ⟨hneg, hcnt⟩
    refine ⟨⟨?_, hneg⟩, hcnt⟩
    exact List.count_pos_iff.mp
      (lt_of_lt_of_le (show 0 < ALERT_THRESHOLD by decide) hcnt)

lemma purgeWindow_eq (w : List String) :
    purgeWindow w = w.filter fun e =>
      decide (¬(e ∈ NEGATIVE_EMOTIONS ∧ ALERT_THRESHOLD ≤ w.count e)) := by
  unfold purgeWindow
  rw [foldl_filter_ne]
  apply List.filter_congr
  intro a _
  exact decide_eq_decide.mpr (not_congr (mem_alertedLabels w a))

/-- C3: in one alert-dispatcher pass over the emotion window, each negative
label with count at least `ALERT_THRESHOLD` (= 5) is alerted exactly once
(the alerted list has no duplicates and contains precisely those labels),
and the purged window keeps exactly the entries of every other label, in
order and unchanged. -/
theorem C3_alert_dispatcher (w : List String) :
    (alertedLabels w).Nodup ∧
    (∀ lab, lab ∈ alertedLabels w ↔
      lab ∈ NEGATIVE_EMOTIONS ∧ ALERT_THRESHOLD ≤ w.count lab) ∧
    purgeWindow w = w.filter fun e =>
      decide (¬(e ∈ NEGATIVE_EMOTIONS ∧ ALERT_THRESHOLD ≤ w.count e)) :=
  ⟨List.Nodup.filter _ (List.nodup_dedup _),
   fun lab => mem_alertedLabels w lab,
   purgeWindow_eq w⟩

/-! ### Majority-vote lemmas -/

lemma foldl_pickStep_mem (w : List String) :
    ∀ (l : List String) (init : String),
      l.foldl (pickStep w) init = init ∨ l.foldl (pickStep w) init ∈ l := by
  intro l
  induction l with
  | nil =>
      intro init
      left
      rfl
  | cons a rest ih =>
      intro init
      rw [List.foldl_cons]
      rcases ih (pickStep w init a) with h | h
      · rw [h]
        unfold pickStep
        split
        · right
          exact List.mem_cons_self _ _
        · left
          rfl
      · right
        exact List.mem_cons_of_mem _ h

lemma foldl_pickStep_count (w : List String) :
    ∀ (l : List String) (init : String),
      w.count init ≤ w.count (l.foldl (pickStep w) init) ∧
      ∀ e ∈ l, w.count e ≤ w.count (l.foldl (pickStep w) init) := by
  intro l
  induction l with
  | nil =>
      intro init
      exact ⟨le_refl _, fun e he => absurd he (List.not_mem_nil e)⟩
  | cons a rest ih =>
      intro init
      rw [List.foldl_cons]
      obtain ⟨h1, h2⟩ := ih (pickStep w init a)
      have hinit : w.count init ≤ w.count (pickStep w init a) := by
        unfold pickStep
        by_cases hc : w.count init < w.count a
        · rw [if_pos hc]
          exact le_of_lt hc
        · rw [if_neg hc]
      have hfst : w.count a ≤ w.count (pickStep w init a) := by
        unfold pickStep
        by_cases hc : w.count init < w.count a
        · rw [if_pos hc]
        · rw [if_neg hc]
          exact le_of_not_lt hc
      refine ⟨le_trans hinit h1, ?_⟩
      intro e he
      rcases List.mem_cons.mp he with rfl | he'
      · exact le_trans hfst h1
      · exact h2 e he'

lemma mostFrequent_mem (w : List String) (h : w ≠ []) : mostFrequent w ∈ w := by
  rcases foldl_pickStep_mem w w "engagement/focus" with heq | hmem
  · unfold mostFrequent
    rw [heq]
    by_contra hni
    obtain ⟨a, rest, hw⟩ := List.exists_cons_of_ne_nil h
    have ha : a ∈ w := by
      rw [hw]
      exact List.mem_cons_self _ _
    have hcnt := (foldl_pickStep_count w w "engagement/focus").2 a ha
    rw [heq] at hcnt
    have h0 : w.count "engagement/focus" = 0 := List.count_eq_zero.mpr hni
    have hpos : 0 < w.count a := List.count_pos_iff.mpr ha
    omega
  · exact hmem

lemma mostFrequent_count_max (w : List String) (e : String) (he : e ∈ w) :
    w.count e ≤ w.count (mostFrequent w) :=
  (foldl_pickStep_count w w "engagement/focus").2 e he

/-- C1 counterexample: with the window holding five "confusion" entries and
one "boredom" entry (and no scrolling), the snapshot's unique most frequent
label is "confusion" (count 5, every other label at most 1), yet the cycle
reports "boredom": the alert loop purges the five "confusion" entries before
the majority is computed. -/
theorem C1_counterexample :
    (runCycle ⟨["confusion", "confusion", "confusion", "confusion",
        "confusion", "boredom"], [], 0⟩).1.facialState = "boredom" ∧
    (["confusion", "confusion", "confusion", "confusion", "confusion",
        "boredom"] : List String).count "confusion" = 5 ∧
    (∀ e ∈ (["confusion", "confusion", "confusion", "confusion", "confusion",
        "boredom"] : List String), e ≠ "confusion" →
      (["confusion", "confusion", "confusion", "confusion", "confusion",
        "boredom"] : List String).count e ≤ 1) ∧
    ("boredom" : String) ≠ "confusion" := by
  decide

/-- C1 (amended): the facial mode of a fusion cycle is the most frequent
label of the emotion window AFTER the alert-driven purge — it is a member of
the purged window of maximal count — and "engagement/focus" when the purged
window is empty; the reported facialState is this mode after the scroll
cross-adjustment. -/
theorem C1_facial_majority (s : MonitorState) :
    (runCycle s).1.facialState
      = crossAdjustFace (faceModeOf (purgeWindow s.emotion_window))
          s.scroll_events ∧
    (purgeWindow s.emotion_window = [] →
      faceModeOf (purgeWindow s.emotion_window) = "engagement/focus") ∧
    (purgeWindow s.emotion_window ≠ [] →
      faceModeOf (purgeWindow s.emotion_window) ∈ purgeWindow s.emotion_window ∧
      ∀ e ∈ purgeWindow s.emotion_window,
        (purgeWindow s.emotion_window).count e
          ≤ (purgeWindow s.emotion_window).count
              (faceModeOf (purgeWindow s.emotion_window))) := by
  refine ⟨rfl, ?_, ?_⟩
  · intro h
    simp [faceModeOf, h]
  · intro h
    have hf : faceModeOf (purgeWindow s.emotion_window)
        = mostFrequent (purgeWindow s.emotion_window) := by
      simp [faceModeOf, h]
    rw [hf]
    exact ⟨mostFrequent_mem _ h, fun e he => mostFrequent_count_max _ e he⟩

/-- C1 witness: on an emptied window the mode defaults to
"engagement/focus"; on the singleton window ["boredom"] (below threshold, so
untouched by the purge) the mode is a maximal-count member of the purged
window. -/
theorem C1_facial_majority_witness :
    purgeWindow ([] : List String) = [] ∧
    faceModeOf (purgeWindow ([] : List String)) = "engagement/focus" ∧
    purgeWindow ["boredom"] ≠ [] ∧
    faceModeOf (purgeWindow ["boredom"]) ∈ purgeWindow ["boredom"] :=
  ⟨by decide,
   (C1_facial_majority ⟨[], [], 0⟩).2.1 (by decide),
   by decide,
   ((C1_facial_majority ⟨["boredom"], [], 0⟩).2.2 (by decide)).1⟩

/-- C8: a fusion cycle starting from already-cleared typing and scroll
windows reports typingState "inactive" and scrollState "focused", and so
does the immediately following cycle: the first run clears both windows
again, so a second run with no new data reproduces the same two states. -/
theorem C8_reducer_idempotent (s : MonitorState)
    (ht : s.typing_metrics = []) (hn : s.scroll_events = 0) :
    ((runCycle s).1.typingState = "inactive" ∧
      (runCycle s).1.scrollState = "focused") ∧
    ((runCycle (runCycle s).2).1.typingState = "inactive" ∧
      (runCycle (runCycle s).2).1.scrollState = "focused") := by
  refine ⟨⟨?_, ?_⟩, ?_, ?_⟩
  · simp [runCycle, typingStateOf, ht]
  · simp [runCycle, scrollStateOf, hn]
  · simp [runCycle, typingStateOf]
  · simp [runCycle, scrollStateOf]

/-- C8 witness: a concrete state with cleared typing and scroll windows. -/
theorem C8_reducer_idempotent_witness :
    (MonitorState.mk ["confusion"] [] 0).typing_metrics = [] ∧
    (MonitorState.mk ["confusion"] [] 0).scroll_events = 0 ∧
    (runCycle ⟨["confusion"], [], 0⟩).1.typingState = "inactive" ∧
    (runCycle ⟨["confusion"], [], 0⟩).1.scrollState = "focused" :=
  ⟨rfl, rfl,
   ((C8_reducer_idempotent ⟨["confusion"], [], 0⟩ rfl rfl).1).1,
   ((C8_reducer_idempotent ⟨["confusion"], [], 0⟩ rfl rfl).1).2⟩

/-! ### EAR geometry lemmas -/

lemma ear_append_of_length_six (l : List (ℝ × ℝ)) (hl : l.length = 6)
    (r : List (ℝ × ℝ)) : ear (l ++ r) = ear l := by
  unfold ear
  rw [List.getD_append l r _ 1 (by omega), List.getD_append l r _ 5 (by omega),
    List.getD_append l r _ 2 (by omega), List.getD_append l r _ 4 (by omega),
    List.getD_append l r _ 0 (by omega), List.getD_append l r _ 3 (by omega)]

lemma euclidean_smul (s : ℝ) (hs : 0 ≤ s) (p q : ℝ × ℝ) :
    euclidean (s * p.1, s * p.2) (s * q.1, s * q.2) = s * euclidean p q := by
  unfold euclidean
  have hsum : (s * p.1 - s * q.1) ^ 2 + (s * p.2 - s * q.2) ^ 2
      = s ^ 2 * ((p.1 - q.1) ^ 2 + (p.2 - q.2) ^ 2) := by ring
  rw [hsum, Real.sqrt_mul (sq_nonneg s), Real.sqrt_sq hs]

/-- C6: in the single-shot endpoint, when a face is detected the tired flag
depends only on the six left-eye points: `ear` applied to the 12-point
concatenation reads only indices 0-5, all of which lie in `l_eye`, so two
requests differing only in the right-eye points get the same tired flag. -/
theorem C6_left_eye_only (l_eye r_eye r_eye' : List (ℝ × ℝ))
    (hl : l_eye.length = 6) :
    apiTired (some (l_eye, r_eye)) = apiTired (some (l_eye, r_eye')) := by
  show decide (ear (l_eye ++ r_eye) < EAR_THRESH)
      = decide (ear (l_eye ++ r_eye') < EAR_THRESH)
  rw [ear_append_of_length_six l_eye hl r_eye,
    ear_append_of_length_six l_eye hl r_eye']

/-- Six concrete left-eye contour points. -/
noncomputable def sampleLeftEye : List (ℝ × ℝ) :=
  [(0, 0), (0, 1), (1, 1), (2, 0), (2, 1), (1, 0)]

/-- C6 witness: two requests sharing the left eye but with different
right-eye landmarks produce the same tired flag. -/
theorem C6_left_eye_only_witness :
    sampleLeftEye.length = 6 ∧
    apiTired (some (sampleLeftEye, [((5 : ℝ), (5 : ℝ))]))
      = apiTired (some (sampleLeftEye, ([] : List (ℝ × ℝ)))) :=
  ⟨rfl, C6_left_eye_only sampleLeftEye _ _ rfl⟩

/-- C10: `ear` is invariant under uniform scaling of all six points by a
positive factor, whenever the horizontal corner points are distinct. -/
theorem C10_ear_scale_invariant (pts : List (ℝ × ℝ)) (s : ℝ) (hs : 0 < s)
    (hlen : pts.length = 6)
    (_hne : pts.getD 0 (0, 0) ≠ pts.getD 3 (0, 0)) :
    ear (pts.map fun p => (s * p.1, s * p.2)) = ear pts := by
  unfold ear
  rw [getD_map_of_lt _ pts 1 (by omega) (0, 0),
    getD_map_of_lt _ pts 5 (by omega) (0, 0),
    getD_map_of_lt _ pts 2 (by omega) (0, 0),
    getD_map_of_lt _ pts 4 (by omega) (0, 0),
    getD_map_of_lt _ pts 0 (by omega) (0, 0),
    getD_map_of_lt _ pts 3 (by omega) (0, 0)]
  simp only [euclidean_smul s (le_of_lt hs)]
  set A := euclidean (pts.getD 1 (0, 0)) (pts.getD 5 (0, 0)) with hA
  set B := euclidean (pts.getD 2 (0, 0)) (pts.getD 4 (0, 0)) with hB
  set C := euclidean (pts.getD 0 (0, 0)) (pts.getD 3 (0, 0)) with hC
  rw [show s * A + s * B = s * (A + B) by ring,
    show 2 * (s * C) = s * (2 * C) by ring,
    mul_div_mul_left _ _ (ne_of_gt hs)]

/-- Six concrete eye-contour points with distinct horizontal corners. -/
noncomputable def samplePts : List (ℝ × ℝ) :=
  [(0, 0), (0, 1), (1, 2), (3, 0), (2, 2), (1, 1)]

/-- C10 witness: scaling the six sample points by 2 leaves their EAR
unchanged. -/
theorem C10_ear_scale_invariant_witness :
    (0 : ℝ) < 2 ∧ samplePts.length = 6 ∧
    samplePts.getD 0 (0, 0) ≠ samplePts.getD 3 (0, 0) ∧
    ear (samplePts.map fun p => ((2 : ℝ) * p.1, (2 : ℝ) * p.2))
      = ear samplePts := by
  have hne : samplePts.getD 0 (0, 0) ≠ samplePts.getD 3 (0, 0) := by
    show ((0 : ℝ), (0 : ℝ)) ≠ ((3 : ℝ), (0 : ℝ))
    intro h
    have h1 : (0 : ℝ) = 3 := congrArg Prod.fst h
    norm_num at h1
  exact ⟨by norm_num, rfl, hne,
    C10_ear_scale_invariant samplePts 2 (by norm_num) rfl hne⟩

/-- C7: the single-shot endpoint rejects a non-image content type with the
415 error and undecodable bytes with the 400 error, in both cases returning
the ambient state unchanged (the module mutates no state). -/
theorem C7_upload_rejection {Frame σ : Type}
    (detect : Frame → Option (List (ℝ × ℝ) × List (ℝ × ℝ)))
    (classify : Frame → ClassifierResult)
    (st : σ) (contentType : String) (decoded : Option Frame) :
    (contentType ∉ ["image/jpeg", "image/png"] →
      affectEndpoint detect classify st contentType decoded
        = (Except.error (415, "upload an image"), st)) ∧
    (contentType ∈ ["image/jpeg", "image/png"] → decoded = none →
      affectEndpoint detect classify st contentType decoded
        = (Except.error (400, "bad image"), st)) := by
  constructor
  · intro h
    simp [affectEndpoint, h]
  · intro h hd
    subst hd
    simp [affectEndpoint, h]

/-- C7 witness: a "text/plain" upload is rejected with 415 and a PNG upload
whose bytes fail to decode is rejected with 400, the ambient state (here the
number 0) unchanged in both cases. -/
theorem C7_upload_rejection_witness :
    ("text/plain" ∉ ["image/jpeg", "image/png"] ∧
      affectEndpoint (fun _ : Unit => none) (fun _ => ClassifierResult.failed)
        (0 : Nat) "text/plain" none
        = (Except.error (415, "upload an image"), 0)) ∧
    ("image/png" ∈ ["image/jpeg", "image/png"] ∧
      affectEndpoint (fun _ : Unit => none) (fun _ => ClassifierResult.failed)
        (0 : Nat) "image/png" none
        = (Except.error (400, "bad image"), 0)) :=
  ⟨⟨by decide, (C7_upload_rejection _ _ _ _ _).1 (by decide)⟩,
   ⟨by decide, (C7_upload_rejection _ _ _ _ _).2 (by decide) rfl⟩⟩

end AffectMonitor
